import Mathlib

/-
Shallow embedding of `run` from src/src/lib.rs of the Locket (Gondolin)
credential manager.  Every external effect (directory resolution and
creation, config and database I/O, the lock file, the dispatched command,
sync, lock removal) is an oracle field of `Env`; `run` threads them in
exactly the order of the Rust source, emitting a chronological event trace
and tracking whether the lock file exists when the process ends.
-/

namespace Gondolin

/-- Mirrors `static DATABASE_FILE_NAME` in lib.rs. -/
def DATABASE_FILE_NAME : String := "gondolin.db"

/-- Mirrors `static CONFIG_FILE_NAME` in lib.rs. -/
def CONFIG_FILE_NAME : String := "gondolin.toml"

/-- Mirrors `static LCK_FILE_NAME` in lib.rs. -/
def LCK_FILE_NAME : String := "gondolin.lck"

/-- The subcommand enum consumed by `run` (args::Subcommands, with the
`web` feature enabled so that `Serve` is present). -/
inductive Subcommands where
  | init
  | new
  | query (name : Option String)
  | remove
  | serve
deriving DecidableEq, Repr

/-- The parsed command line (args::Cli), as consumed by `run`. -/
structure Cli where
  subcommand : Subcommands
deriving DecidableEq, Repr

/-- The loaded configuration record (models::Config): the database path
chosen by the user and the serve port. -/
structure Config where
  path : String
  port : Nat
deriving DecidableEq, Repr

/-- Outcome of the `fs::remove_file(lck_path)` call at the end of `run`:
success, `ErrorKind::NotFound`, or some other I/O error. -/
inductive LockRemoveOutcome where
  | ok
  | notFound
  | err (msg : String)
deriving DecidableEq, Repr

/-- Oracle for every external effect `run` performs, in source order.
`projDirs` is `directories::ProjectDirs::from(...)`; the `Except` fields
are the results of the corresponding fallible calls; `lockExists0` is
whether the lock file already exists when `run` starts (the
`ErrorKind::AlreadyExists` case of the exclusive create), and
`lockCreateErr` is a possible other I/O error of the exclusive create. -/
structure Env where
  projDirs : Option (String × String)
  confDirExists : Except String Bool
  dataDirExists : Except String Bool
  createConfDir : Except String Unit
  createDataDir : Except String Unit
  configInitOutcome : Except String Unit
  dbInitOutcome : Except String Unit
  configOpenOutcome : Except String Config
  dbOpenOutcome : Except String Unit
  tempDir : String
  lockExists0 : Bool
  lockCreateErr : Option String
  cmdNew : Except String Unit
  cmdRemove : Except String Unit
  cmdServe : Except String Unit
  syncOutcome : Except String Unit
  lockRemoveOutcome : LockRemoveOutcome

/-- Observable events of a run, in chronological order.  `dbInitEv` and
`syncEv` are the only events that write the database file; `lockCreateEv`
and `lockRemoveEv` are the attempts to create and remove the lock file. -/
inductive Event where
  | checkConfDir
  | checkDataDir
  | createConfDirEv
  | createDataDirEv
  | configInitEv (confPath dbPath : String)
  | dbInitEv (dbPath : String)
  | configOpenEv (confPath : String)
  | dbOpenEv (dbPath : String)
  | lockCreateEv (lckPath : String)
  | dispatchEv (cmd : Subcommands)
  | syncEv
  | lockRemoveEv (lckPath : String)
  | stderrEv (msg : String)
  | stdoutEv (msg : String)
deriving DecidableEq, Repr

/-- How the process ends: `Ok(())`, a propagated `eyre` error (with its
context chain flattened to a message), `std::process::exit(code)`, or the
undefined behaviour of executing `unreachable_unchecked`. -/
inductive RunResult where
  | ok
  | error (msg : String)
  | exit (code : Nat)
  | ub
deriving DecidableEq, Repr

/-- Final observation of a run: the process result, the chronological
event trace, and whether the lock file exists on disk afterwards. -/
structure RunOutcome where
  result : RunResult
  trace : List Event
  lockAfter : Bool
deriving DecidableEq, Repr

/-- The message printed when the lock file already exists. -/
def alreadyRunningMsg : String :=
  "An instance of Gondolin is already running, please kill it or wait for it to quit before trying to run another instance"

/-- The message printed when the lock file is gone at removal time. -/
def lockGoneMsg : String :=
  "Tried to remove the lockfile, but it was already gone"

/-- The message printed on successful initialisation. -/
def initDoneMsg : String :=
  "Successfully initialised a database and configuration file"

/-- The lock file path: `env::temp_dir()` joined with `LCK_FILE_NAME`. -/
def lockPath (env : Env) : String := env.tempDir ++ "/" ++ LCK_FILE_NAME

/-- Tail of `run` after the dispatched command succeeded: `db.sync()`
followed by `fs::remove_file(lck_path)`, with the error handling of the
source.  The lock file exists at this point (`lockAfter = true` on the
sync-error path and on the other-I/O-error removal path). -/
def afterDispatch (env : Env) (tr : List Event) : RunOutcome :=
  let tr := tr ++ [Event.syncEv]
  match env.syncOutcome with
  | .error e => ⟨.error ("Failed to sync database to disk: " ++ e), tr, true⟩
  | .ok _ =>
    let tr := tr ++ [Event.lockRemoveEv (lockPath env)]
    match env.lockRemoveOutcome with
    | .ok => ⟨.ok, tr, false⟩
    | .notFound => ⟨.exit 1, tr ++ [Event.stderrEv lockGoneMsg], false⟩
    | .err e => ⟨.error ("Failed to remove the lockfile: " ++ e), tr, true⟩

/-- The non-`Init` path of `run`: open the config interactively, open the
database at `config.path`, create the lock file exclusively, dispatch the
command (the `Init` arm is `unreachable_unchecked`, modelled as
`RunResult.ub`), then `afterDispatch`. -/
def normalBranch (env : Env) (cmd : Subcommands) (confPath : String)
    (tr : List Event) : RunOutcome :=
  let tr := tr ++ [Event.configOpenEv confPath]
  match env.configOpenOutcome with
  | .error e => ⟨.error ("Failed to open config interactively: " ++ e), tr, env.lockExists0⟩
  | .ok config =>
    let tr := tr ++ [Event.dbOpenEv config.path]
    match env.dbOpenOutcome with
    | .error e => ⟨.error ("Failed to open the existing database: " ++ e), tr, env.lockExists0⟩
    | .ok _ =>
      let tr := tr ++ [Event.lockCreateEv (lockPath env)]
      if env.lockExists0 then
        ⟨.exit 1, tr ++ [Event.stderrEv alreadyRunningMsg], true⟩
      else
        match env.lockCreateErr with
        | some e => ⟨.error ("Failed to open the lockfile: " ++ e), tr, false⟩
        | none =>
          let tr := tr ++ [Event.dispatchEv cmd]
          match cmd with
          | .init => ⟨.ub, tr, true⟩
          | .new =>
            match env.cmdNew with
            | .error e => ⟨.error ("Failed to add a new login to the database: " ++ e), tr, true⟩
            | .ok _ => afterDispatch env tr
          | .query _ => afterDispatch env tr
          | .remove =>
            match env.cmdRemove with
            | .error e => ⟨.error ("Failed to remove a login from the database interactively: " ++ e), tr, true⟩
            | .ok _ => afterDispatch env tr
          | .serve =>
            match env.cmdServe with
            | .error e => ⟨.error ("Failed to serve webpage: " ++ e), tr, true⟩
            | .ok _ => afterDispatch env tr

/-- The `Init` path of `run`: `Config::init_interactive(&conf_path,
&db_path)` then `Database::init(db_path)` then the success message; the
lock file is never touched. -/
def initBranch (env : Env) (confPath dbPath : String) (tr : List Event) :
    RunOutcome :=
  let tr := tr ++ [Event.configInitEv confPath dbPath]
  match env.configInitOutcome with
  | .error e => ⟨.error ("Failed to initialise configuration file: " ++ e), tr, env.lockExists0⟩
  | .ok _ =>
    let tr := tr ++ [Event.dbInitEv dbPath]
    match env.dbInitOutcome with
    | .error e => ⟨.error ("Failed to initialise database: " ++ e), tr, env.lockExists0⟩
    | .ok _ => ⟨.ok, tr ++ [Event.stdoutEv initDoneMsg], env.lockExists0⟩

/-- After the directories exist: compute `conf_path` and `db_path`, then
branch on `matches!(args.subcommand, C::Init)`. -/
def branch (env : Env) (args : Cli) (confDir dataDir : String)
    (tr : List Event) : RunOutcome :=
  let confPath := confDir ++ "/" ++ CONFIG_FILE_NAME
  let dbPath := dataDir ++ "/" ++ DATABASE_FILE_NAME
  if args.subcommand = Subcommands.init then
    initBranch env confPath dbPath tr
  else
    normalBranch env args.subcommand confPath tr

/-- Create both directories with `fs::create_dir_all` (config first, then
data), as the body of the `if` in `run`. -/
def createDirs (env : Env) (args : Cli) (confDir dataDir : String)
    (tr : List Event) : RunOutcome :=
  let tr := tr ++ [Event.createConfDirEv]
  match env.createConfDir with
  | .error e => ⟨.error ("Failed to create configuration dir: " ++ e), tr, env.lockExists0⟩
  | .ok _ =>
    let tr := tr ++ [Event.createDataDirEv]
    match env.createDataDir with
    | .error e => ⟨.error ("Failed to create data dir: " ++ e), tr, env.lockExists0⟩
    | .ok _ => branch env args confDir dataDir tr

/-- The directory-existence check of `run`: `!conf.try_exists()? ||
!data.try_exists()?` with Rust short-circuit evaluation, creating both
directories when either is missing. -/
def withDirs (env : Env) (args : Cli) (confDir dataDir : String) :
    RunOutcome :=
  let tr := [Event.checkConfDir]
  match env.confDirExists with
  | .error e => ⟨.error ("Failed to check if configuration dir exists: " ++ e), tr, env.lockExists0⟩
  | .ok ce =>
    if ce then
      let tr := tr ++ [Event.checkDataDir]
      match env.dataDirExists with
      | .error e => ⟨.error ("Failed to check if data dir exists: " ++ e), tr, env.lockExists0⟩
      | .ok de =>
        if de then branch env args confDir dataDir tr
        else createDirs env args confDir dataDir tr
    else createDirs env args confDir dataDir tr

/-- The embedded `run` function of lib.rs. -/
def run (env : Env) (args : Cli) : RunOutcome :=
  match env.projDirs with
  | none => ⟨.error "Failed to get project directories", [], env.lockExists0⟩
  | some dirs => withDirs env args dirs.1 dirs.2

/-- Result of the dispatched command for a given subcommand, read off the
corresponding arm of the dispatch match (`query` never fails; the `init`
arm is never consulted on the success path). -/
def cmdOutcome (env : Env) : Subcommands → Except String Unit
  | .init => .ok ()
  | .new => env.cmdNew
  | .query _ => .ok ()
  | .remove => env.cmdRemove
  | .serve => env.cmdServe

/-- An environment where every effect succeeds, used for concrete
evaluations. -/
def okEnv : Env where
  projDirs := some ("/home/user/.config/gondolin", "/home/user/.local/share/gondolin")
  confDirExists := .ok true
  dataDirExists := .ok true
  createConfDir := .ok ()
  createDataDir := .ok ()
  configInitOutcome := .ok ()
  dbInitOutcome := .ok ()
  configOpenOutcome := .ok ⟨"/home/user/.local/share/gondolin/gondolin.db", 8080⟩
  dbOpenOutcome := .ok ()
  tempDir := "/tmp"
  lockExists0 := false
  lockCreateErr := none
  cmdNew := .ok ()
  cmdRemove := .ok ()
  cmdServe := .ok ()
  syncOutcome := .ok ()
  lockRemoveOutcome := .ok

/-- The `wrap_err` context attached to each dispatch arm's error, read
off the corresponding arm of the dispatch match. -/
def dispatchErrCtx : Subcommands → String → String
  | .new, e => "Failed to add a new login to the database: " ++ e
  | .remove, e => "Failed to remove a login from the database interactively: " ++ e
  | .serve, e => "Failed to serve webpage: " ++ e
  | _, e => e

/-- An environment whose configuration records a database path different
from the resolved default `<data_dir>/gondolin.db`. -/
def divergeEnv : Env := { okEnv with configOpenOutcome := .ok ⟨"/elsewhere/mydb.db", 9000⟩ }

/-- An environment where the `new` command fails. -/
def newFailEnv : Env := { okEnv with cmdNew := .error "input aborted" }

/-- An environment where `sync` fails. -/
def syncFailEnv : Env := { okEnv with syncOutcome := .error "disk full" }

/-- An environment where the lock file already exists at start. -/
def lockedEnv : Env := { okEnv with lockExists0 := true }

/-- An environment where creating the lock file fails with an I/O error
other than already-exists. -/
def lockCreateFailEnv : Env := { okEnv with lockCreateErr := some "permission denied" }

/-- An environment where the lock file is gone at removal time. -/
def lockGoneEnv : Env := { okEnv with lockRemoveOutcome := .notFound }

/-- An environment where removing the lock file fails with an I/O error
other than not-found. -/
def lockRemoveFailEnv : Env := { okEnv with lockRemoveOutcome := .err "permission denied" }

/-- An environment where opening the configuration fails. -/
def cfgFailEnv : Env := { okEnv with configOpenOutcome := .error "corrupt file" }

/-- An environment where opening the database fails. -/
def dbFailEnv : Env := { okEnv with dbOpenOutcome := .error "file not found" }

/-- An environment where the platform supplies no project directories. -/
def noDirsEnv : Env := { okEnv with projDirs := none }

/-- An environment where the configuration directory does not yet
exist. -/
def mkDirsEnv : Env := { okEnv with confDirExists := .ok false }

example : (run okEnv ⟨Subcommands.init⟩).result = RunResult.ok := by decide

example : (run okEnv ⟨Subcommands.new⟩).result = RunResult.ok := by decide

section Helpers

variable (env : Env) (args : Cli)

/-- The function `afterDispatch` never yields undefined behaviour. -/
theorem afterDispatch_ne_ub (tr : List Event) :
    (afterDispatch env tr).result ≠ RunResult.ub := by
  unfold afterDispatch
  cases env.syncOutcome <;> simp
  cases env.lockRemoveOutcome <;> simp

/-- The function `normalBranch` on a non-`init` subcommand never yields undefined
behaviour. -/
theorem normalBranch_ne_ub (cmd : Subcommands) (confPath : String)
    (tr : List Event) (h : cmd ≠ Subcommands.init) :
    (normalBranch env cmd confPath tr).result ≠ RunResult.ub := by
  unfold normalBranch
  cases env.configOpenOutcome <;> simp
  cases env.dbOpenOutcome <;> simp
  cases env.lockExists0 <;> simp
  cases env.lockCreateErr <;> simp
  cases cmd with
  | init => exact absurd rfl h
  | new => cases env.cmdNew <;> simp [afterDispatch_ne_ub]
  | query name => simp [afterDispatch_ne_ub]
  | remove => cases env.cmdRemove <;> simp [afterDispatch_ne_ub]
  | serve => cases env.cmdServe <;> simp [afterDispatch_ne_ub]

/-- The function `initBranch` never yields undefined behaviour. -/
theorem initBranch_ne_ub (confPath dbPath : String) (tr : List Event) :
    (initBranch env confPath dbPath tr).result ≠ RunResult.ub := by
  unfold initBranch
  cases env.configInitOutcome <;> simp
  cases env.dbInitOutcome <;> simp

/-- The function `branch` never yields undefined behaviour. -/
theorem branch_ne_ub (confDir dataDir : String) (tr : List Event) :
    (branch env args confDir dataDir tr).result ≠ RunResult.ub := by
  unfold branch
  by_cases h : args.subcommand = Subcommands.init
  · simp [h, initBranch_ne_ub]
  · simp [h, normalBranch_ne_ub env args.subcommand _ _ h]

/-- The function `createDirs` never yields undefined behaviour. -/
theorem createDirs_ne_ub (confDir dataDir : String) (tr : List Event) :
    (createDirs env args confDir dataDir tr).result ≠ RunResult.ub := by
  unfold createDirs
  cases env.createConfDir <;> simp
  cases env.createDataDir <;> simp [branch_ne_ub]

/-- The function `withDirs` never yields undefined behaviour. -/
theorem withDirs_ne_ub (confDir dataDir : String) :
    (withDirs env args confDir dataDir).result ≠ RunResult.ub := by
  unfold withDirs
  cases env.confDirExists with
  | error e => simp
  | ok ce =>
    cases ce <;> simp [createDirs_ne_ub]
    cases env.dataDirExists with
    | error e => simp
    | ok de => cases de <;> simp [branch_ne_ub, createDirs_ne_ub]

/-- Events already in the trace survive `afterDispatch`. -/
theorem afterDispatch_mem {ev : Event} {tr : List Event} (h : ev ∈ tr) :
    ev ∈ (afterDispatch env tr).trace := by
  unfold afterDispatch
  cases env.syncOutcome <;> simp [h]
  cases env.lockRemoveOutcome <;> simp [h]

/-- Events already in the trace survive `normalBranch`. -/
theorem normalBranch_mem {ev : Event} {tr : List Event}
    (cmd : Subcommands) (confPath : String) (h : ev ∈ tr) :
    ev ∈ (normalBranch env cmd confPath tr).trace := by
  unfold normalBranch
  cases env.configOpenOutcome <;> simp [h]
  cases env.dbOpenOutcome <;> simp [h]
  cases env.lockExists0 <;> simp [h]
  cases env.lockCreateErr <;> simp [h]
  cases cmd with
  | init => simp [h]
  | new => cases env.cmdNew <;> simp [h, afterDispatch_mem]
  | query name => simp [h, afterDispatch_mem]
  | remove => cases env.cmdRemove <;> simp [h, afterDispatch_mem]
  | serve => cases env.cmdServe <;> simp [h, afterDispatch_mem]

/-- Events already in the trace survive `initBranch`. -/
theorem initBranch_mem {ev : Event} {tr : List Event}
    (confPath dbPath : String) (h : ev ∈ tr) :
    ev ∈ (initBranch env confPath dbPath tr).trace := by
  unfold initBranch
  cases env.configInitOutcome <;> simp [h]
  cases env.dbInitOutcome <;> simp [h]

/-- Events already in the trace survive `branch`. -/
theorem branch_mem {ev : Event} {tr : List Event}
    (confDir dataDir : String) (h : ev ∈ tr) :
    ev ∈ (branch env args confDir dataDir tr).trace := by
  unfold branch
  by_cases hs : args.subcommand = Subcommands.init <;>
    simp [hs, initBranch_mem, normalBranch_mem, h]

/-- On the non-`init` branch with both directories present, `run` reduces
to `normalBranch` after the two existence checks. -/
theorem run_normal_eq (cd dd : String)
    (hsub : args.subcommand ≠ Subcommands.init)
    (hpd : env.projDirs = some (cd, dd))
    (hce : env.confDirExists = Except.ok true)
    (hde : env.dataDirExists = Except.ok true) :
    run env args = normalBranch env args.subcommand
      (cd ++ "/" ++ CONFIG_FILE_NAME)
      [Event.checkConfDir, Event.checkDataDir] := by
  simp [run, hpd, withDirs, hce, hde, branch, hsub]

/-- With every stage up to and including the dispatched command
succeeding, `run` reduces to `afterDispatch` on the trace accumulated so
far. -/
theorem run_afterDispatch_eq (cd dd : String) (cfg : Config)
    (hsub : args.subcommand ≠ Subcommands.init)
    (hpd : env.projDirs = some (cd, dd))
    (hce : env.confDirExists = Except.ok true)
    (hde : env.dataDirExists = Except.ok true)
    (hco : env.configOpenOutcome = Except.ok cfg)
    (hdo : env.dbOpenOutcome = Except.ok ())
    (hl0 : env.lockExists0 = false)
    (hlc : env.lockCreateErr = none)
    (hcmd : cmdOutcome env args.subcommand = Except.ok ()) :
    run env args = afterDispatch env
      [Event.checkConfDir, Event.checkDataDir,
       Event.configOpenEv (cd ++ "/" ++ CONFIG_FILE_NAME),
       Event.dbOpenEv cfg.path,
       Event.lockCreateEv (lockPath env),
       Event.dispatchEv args.subcommand] := by
  rw [run_normal_eq env args cd dd hsub hpd hce hde]
  cases hs : args.subcommand with
  | init => exact absurd hs hsub
  | new =>
    rw [hs] at hcmd
    simp only [cmdOutcome] at hcmd
    simp [normalBranch, hco, hdo, hl0, hlc, hcmd]
  | query name =>
    simp [normalBranch, hco, hdo, hl0, hlc]
  | remove =>
    rw [hs] at hcmd
    simp only [cmdOutcome] at hcmd
    simp [normalBranch, hco, hdo, hl0, hlc, hcmd]
  | serve =>
    rw [hs] at hcmd
    simp only [cmdOutcome] at hcmd
    simp [normalBranch, hco, hdo, hl0, hlc, hcmd]

/-- When the lock file already exists, a non-`init` run that reaches lock
acquisition prints the already-running message and exits 1. -/
theorem run_already_locked (cd dd : String) (cfg : Config)
    (hsub : args.subcommand ≠ Subcommands.init)
    (hpd : env.projDirs = some (cd, dd))
    (hce : env.confDirExists = Except.ok true)
    (hde : env.dataDirExists = Except.ok true)
    (hco : env.configOpenOutcome = Except.ok cfg)
    (hdo : env.dbOpenOutcome = Except.ok ())
    (hl0 : env.lockExists0 = true) :
    run env args = ⟨RunResult.exit 1,
      [Event.checkConfDir, Event.checkDataDir,
       Event.configOpenEv (cd ++ "/" ++ CONFIG_FILE_NAME),
       Event.dbOpenEv cfg.path,
       Event.lockCreateEv (lockPath env),
       Event.stderrEv alreadyRunningMsg],
      true⟩ := by
  rw [run_normal_eq env args cd dd hsub hpd hce hde]
  simp [normalBranch, hco, hdo, hl0]

/-- Once the lock is created, the dispatch event is always emitted. -/
theorem normalBranch_dispatch_mem (cmd : Subcommands) (confPath : String)
    (tr : List Event) (cfg : Config)
    (hco : env.configOpenOutcome = Except.ok cfg)
    (hdo : env.dbOpenOutcome = Except.ok ())
    (hl0 : env.lockExists0 = false)
    (hlc : env.lockCreateErr = none) :
    Event.dispatchEv cmd ∈ (normalBranch env cmd confPath tr).trace := by
  unfold normalBranch
  simp only [hco, hdo, hl0, hlc]
  cases cmd with
  | init => simp
  | new => cases env.cmdNew <;> simp [afterDispatch_mem]
  | query name => simp [afterDispatch_mem]
  | remove => cases env.cmdRemove <;> simp [afterDispatch_mem]
  | serve => cases env.cmdServe <;> simp [afterDispatch_mem]

/-- The database-open event carries the path stored in the loaded
configuration. -/
theorem normalBranch_dbOpen_mem (cmd : Subcommands) (confPath : String)
    (tr : List Event) (cfg : Config)
    (hco : env.configOpenOutcome = Except.ok cfg) :
    Event.dbOpenEv cfg.path ∈ (normalBranch env cmd confPath tr).trace := by
  unfold normalBranch
  simp only [hco]
  cases env.dbOpenOutcome <;> simp
  cases env.lockExists0 <;> simp
  cases env.lockCreateErr <;> simp
  cases cmd with
  | init => simp
  | new => cases env.cmdNew <;> simp [afterDispatch_mem]
  | query name => simp [afterDispatch_mem]
  | remove => cases env.cmdRemove <;> simp [afterDispatch_mem]
  | serve => cases env.cmdServe <;> simp [afterDispatch_mem]

end Helpers

/-- C4: a run whose subcommand is `init` (directories present, both
initialisation steps succeeding) initialises the configuration file and
then an empty database, prints the success message and returns `Ok`; its
trace contains no lock-file event and no dispatch event, and the lock
file on disk is untouched. -/
theorem run_init_branch (env : Env) (args : Cli) (cd dd : String)
    (hsub : args.subcommand = Subcommands.init)
    (hpd : env.projDirs = some (cd, dd))
    (hce : env.confDirExists = Except.ok true)
    (hde : env.dataDirExists = Except.ok true)
    (hci : env.configInitOutcome = Except.ok ())
    (hdi : env.dbInitOutcome = Except.ok ()) :
    run env args = ⟨RunResult.ok,
      [Event.checkConfDir, Event.checkDataDir,
       Event.configInitEv (cd ++ "/" ++ CONFIG_FILE_NAME) (dd ++ "/" ++ DATABASE_FILE_NAME),
       Event.dbInitEv (dd ++ "/" ++ DATABASE_FILE_NAME),
       Event.stdoutEv initDoneMsg],
      env.lockExists0⟩ ∧
    (∀ p, Event.lockCreateEv p ∉ (run env args).trace) ∧
    (∀ c, Event.dispatchEv c ∉ (run env args).trace) := by
  have h : run env args = ⟨RunResult.ok,
      [Event.checkConfDir, Event.checkDataDir,
       Event.configInitEv (cd ++ "/" ++ CONFIG_FILE_NAME) (dd ++ "/" ++ DATABASE_FILE_NAME),
       Event.dbInitEv (dd ++ "/" ++ DATABASE_FILE_NAME),
       Event.stdoutEv initDoneMsg],
      env.lockExists0⟩ := by
    simp [run, hpd, withDirs, hce, hde, branch, hsub, initBranch, hci, hdi]
  refine ⟨h, ?_, ?_⟩ <;> intro x <;> simp [h]

/-- Concrete instantiation of the init-branch theorem at `okEnv`. -/
theorem run_init_branch_witness :
    run okEnv ⟨Subcommands.init⟩ = ⟨RunResult.ok,
      [Event.checkConfDir, Event.checkDataDir,
       Event.configInitEv ("/home/user/.config/gondolin" ++ "/" ++ CONFIG_FILE_NAME)
         ("/home/user/.local/share/gondolin" ++ "/" ++ DATABASE_FILE_NAME),
       Event.dbInitEv ("/home/user/.local/share/gondolin" ++ "/" ++ DATABASE_FILE_NAME),
       Event.stdoutEv initDoneMsg],
      false⟩ ∧
    (∀ p, Event.lockCreateEv p ∉ (run okEnv ⟨Subcommands.init⟩).trace) ∧
    (∀ c, Event.dispatchEv c ∉ (run okEnv ⟨Subcommands.init⟩).trace) :=
  run_init_branch okEnv ⟨Subcommands.init⟩ "/home/user/.config/gondolin"
    "/home/user/.local/share/gondolin" rfl rfl rfl rfl rfl rfl

/-- The trace and outcome of a fully successful non-`init` run: every
stage succeeds in source order and the run returns `Ok` with the lock
file removed. -/
theorem run_normal_success_eq (env : Env) (args : Cli) (cd dd : String)
    (cfg : Config)
    (hsub : args.subcommand ≠ Subcommands.init)
    (hpd : env.projDirs = some (cd, dd))
    (hce : env.confDirExists = Except.ok true)
    (hde : env.dataDirExists = Except.ok true)
    (hco : env.configOpenOutcome = Except.ok cfg)
    (hdo : env.dbOpenOutcome = Except.ok ())
    (hl0 : env.lockExists0 = false)
    (hlc : env.lockCreateErr = none)
    (hcmd : cmdOutcome env args.subcommand = Except.ok ())
    (hsy : env.syncOutcome = Except.ok ())
    (hlr : env.lockRemoveOutcome = LockRemoveOutcome.ok) :
    run env args = ⟨RunResult.ok,
      [Event.checkConfDir, Event.checkDataDir,
       Event.configOpenEv (cd ++ "/" ++ CONFIG_FILE_NAME),
       Event.dbOpenEv cfg.path,
       Event.lockCreateEv (lockPath env),
       Event.dispatchEv args.subcommand,
       Event.syncEv,
       Event.lockRemoveEv (lockPath env)],
      false⟩ := by
  cases hs : args.subcommand with
  | init => exact absurd hs hsub
  | new =>
    rw [hs] at hcmd
    simp only [cmdOutcome] at hcmd
    simp [run, hpd, withDirs, hce, hde, branch, hs, normalBranch, hco, hdo,
      hl0, hlc, hcmd, afterDispatch, hsy, hlr]
  | query name =>
    simp [run, hpd, withDirs, hce, hde, branch, hs, normalBranch, hco, hdo,
      hl0, hlc, afterDispatch, hsy, hlr]
  | remove =>
    rw [hs] at hcmd
    simp only [cmdOutcome] at hcmd
    simp [run, hpd, withDirs, hce, hde, branch, hs, normalBranch, hco, hdo,
      hl0, hlc, hcmd, afterDispatch, hsy, hlr]
  | serve =>
    rw [hs] at hcmd
    simp only [cmdOutcome] at hcmd
    simp [run, hpd, withDirs, hce, hde, branch, hs, normalBranch, hco, hdo,
      hl0, hlc, hcmd, afterDispatch, hsy, hlr]

/-- C2: on a successful non-`init` run, `syncEv` occurs exactly once in
the trace, after the dispatch event and immediately before the lock
removal, and no database-writing event other than that single sync
appears after the dispatched command (in particular no `dbInitEv` at
all). -/
theorem run_sync_exactly_once (env : Env) (args : Cli) (cd dd : String)
    (cfg : Config)
    (hsub : args.subcommand ≠ Subcommands.init)
    (hpd : env.projDirs = some (cd, dd))
    (hce : env.confDirExists = Except.ok true)
    (hde : env.dataDirExists = Except.ok true)
    (hco : env.configOpenOutcome = Except.ok cfg)
    (hdo : env.dbOpenOutcome = Except.ok ())
    (hl0 : env.lockExists0 = false)
    (hlc : env.lockCreateErr = none)
    (hcmd : cmdOutcome env args.subcommand = Except.ok ())
    (hsy : env.syncOutcome = Except.ok ())
    (hlr : env.lockRemoveOutcome = LockRemoveOutcome.ok) :
    (run env args).result = RunResult.ok ∧
    (run env args).trace =
      [Event.checkConfDir, Event.checkDataDir,
       Event.configOpenEv (cd ++ "/" ++ CONFIG_FILE_NAME),
       Event.dbOpenEv cfg.path,
       Event.lockCreateEv (lockPath env),
       Event.dispatchEv args.subcommand,
       Event.syncEv,
       Event.lockRemoveEv (lockPath env)] ∧
    (run env args).trace.count Event.syncEv = 1 ∧
    (∀ p, Event.dbInitEv p ∉ (run env args).trace) := by
  have h := run_normal_success_eq env args cd dd cfg hsub hpd hce hde hco hdo
    hl0 hlc hcmd hsy hlr
  refine ⟨by simp [h], by simp [h], ?_, ?_⟩
  · simp [h, List.count_cons]
  · intro p
    simp [h]

/-- Concrete instantiation of the sync-exactly-once theorem at `okEnv`
running `query`. -/
theorem run_sync_exactly_once_witness :
    (run okEnv ⟨Subcommands.query none⟩).result = RunResult.ok ∧
    (run okEnv ⟨Subcommands.query none⟩).trace =
      [Event.checkConfDir, Event.checkDataDir,
       Event.configOpenEv ("/home/user/.config/gondolin" ++ "/" ++ CONFIG_FILE_NAME),
       Event.dbOpenEv "/home/user/.local/share/gondolin/gondolin.db",
       Event.lockCreateEv (lockPath okEnv),
       Event.dispatchEv (Subcommands.query none),
       Event.syncEv,
       Event.lockRemoveEv (lockPath okEnv)] ∧
    (run okEnv ⟨Subcommands.query none⟩).trace.count Event.syncEv = 1 ∧
    (∀ p, Event.dbInitEv p ∉ (run okEnv ⟨Subcommands.query none⟩).trace) :=
  run_sync_exactly_once okEnv ⟨Subcommands.query none⟩
    "/home/user/.config/gondolin" "/home/user/.local/share/gondolin"
    ⟨"/home/user/.local/share/gondolin/gondolin.db", 8080⟩
    (by decide) rfl rfl rfl rfl rfl rfl rfl rfl rfl rfl

/-- C8: the `Init` arm of the normal-branch dispatch match is never
executed: for every environment and every command line, `run` never
reaches the `unreachable_unchecked` there (no run ends in undefined
behaviour), because the init branch returns before the dispatch match. -/
theorem run_init_arm_unreachable (env : Env) (args : Cli) :
    (run env args).result ≠ RunResult.ub := by
  unfold run
  cases env.projDirs <;> simp [withDirs_ne_ub]

/-- C1: when the dispatched command (`new`, `remove` or `serve`) fails,
`run` propagates that error with the arm's context; no sync event and no
lock-removal event occur, and the lock file is left behind. -/
theorem run_dispatch_error_propagates (env : Env) (args : Cli)
    (cd dd : String) (cfg : Config) (e : String)
    (hpd : env.projDirs = some (cd, dd))
    (hce : env.confDirExists = Except.ok true)
    (hde : env.dataDirExists = Except.ok true)
    (hco : env.configOpenOutcome = Except.ok cfg)
    (hdo : env.dbOpenOutcome = Except.ok ())
    (hl0 : env.lockExists0 = false)
    (hlc : env.lockCreateErr = none)
    (hdisp : (args.subcommand = Subcommands.new ∧ env.cmdNew = Except.error e) ∨
             (args.subcommand = Subcommands.remove ∧ env.cmdRemove = Except.error e) ∨
             (args.subcommand = Subcommands.serve ∧ env.cmdServe = Except.error e)) :
    (run env args).result = RunResult.error (dispatchErrCtx args.subcommand e) ∧
    Event.syncEv ∉ (run env args).trace ∧
    (∀ p, Event.lockRemoveEv p ∉ (run env args).trace) ∧
    (run env args).lockAfter = true := by
  have hsub : args.subcommand ≠ Subcommands.init := by
    rcases hdisp with ⟨hs, _⟩ | ⟨hs, _⟩ | ⟨hs, _⟩ <;> simp [hs]
  rw [run_normal_eq env args cd dd hsub hpd hce hde]
  rcases hdisp with ⟨hs, herr⟩ | ⟨hs, herr⟩ | ⟨hs, herr⟩ <;>
    simp [hs, normalBranch, hco, hdo, hl0, hlc, herr, dispatchErrCtx]

/-- Concrete instantiation of the dispatch-error theorem: `new` fails in
`newFailEnv`. -/
theorem run_dispatch_error_propagates_witness :
    (run newFailEnv ⟨Subcommands.new⟩).result =
      RunResult.error (dispatchErrCtx Subcommands.new "input aborted") ∧
    Event.syncEv ∉ (run newFailEnv ⟨Subcommands.new⟩).trace ∧
    (∀ p, Event.lockRemoveEv p ∉ (run newFailEnv ⟨Subcommands.new⟩).trace) ∧
    (run newFailEnv ⟨Subcommands.new⟩).lockAfter = true :=
  run_dispatch_error_propagates newFailEnv ⟨Subcommands.new⟩
    "/home/user/.config/gondolin" "/home/user/.local/share/gondolin"
    ⟨"/home/user/.local/share/gondolin/gondolin.db", 8080⟩ "input aborted"
    rfl rfl rfl rfl rfl rfl rfl (Or.inl ⟨rfl, rfl⟩)

/-- C3: lock acquisition has exactly three outcomes: on success the run
continues into dispatch; if the lock file already exists, the
already-running message goes to stderr and the process exits 1 without a
dispatch, a sync or any database write; any other I/O error is propagated
as a contextualized lock-acquisition error. -/
theorem run_lock_acquire_outcomes (env : Env) (args : Cli)
    (cd dd : String) (cfg : Config)
    (hsub : args.subcommand ≠ Subcommands.init)
    (hpd : env.projDirs = some (cd, dd))
    (hce : env.confDirExists = Except.ok true)
    (hde : env.dataDirExists = Except.ok true)
    (hco : env.configOpenOutcome = Except.ok cfg)
    (hdo : env.dbOpenOutcome = Except.ok ()) :
    (env.lockExists0 = false → env.lockCreateErr = none →
      Event.dispatchEv args.subcommand ∈ (run env args).trace) ∧
    (env.lockExists0 = true →
      (run env args).result = RunResult.exit 1 ∧
      Event.stderrEv alreadyRunningMsg ∈ (run env args).trace ∧
      Event.syncEv ∉ (run env args).trace ∧
      (∀ c, Event.dispatchEv c ∉ (run env args).trace) ∧
      (∀ p, Event.dbInitEv p ∉ (run env args).trace) ∧
      (run env args).lockAfter = true) ∧
    (∀ e, env.lockExists0 = false → env.lockCreateErr = some e →
      (run env args).result = RunResult.error ("Failed to open the lockfile: " ++ e) ∧
      Event.syncEv ∉ (run env args).trace ∧
      (∀ c, Event.dispatchEv c ∉ (run env args).trace)) := by
  refine ⟨?_, ?_, ?_⟩
  · intro hl0 hlc
    rw [run_normal_eq env args cd dd hsub hpd hce hde]
    exact normalBranch_dispatch_mem env args.subcommand _ _ cfg hco hdo hl0 hlc
  · intro hl0
    have h := run_already_locked env args cd dd cfg hsub hpd hce hde hco hdo hl0
    simp [h]
  · intro e hl0 hlc
    rw [run_normal_eq env args cd dd hsub hpd hce hde]
    simp [normalBranch, hco, hdo, hl0, hlc]

/-- Concrete instantiation of the lock-acquisition theorem: a second
instance in `lockedEnv` exits 1 with the already-running message. -/
theorem run_lock_acquire_outcomes_witness :
    (run lockedEnv ⟨Subcommands.new⟩).result = RunResult.exit 1 ∧
    Event.stderrEv alreadyRunningMsg ∈ (run lockedEnv ⟨Subcommands.new⟩).trace ∧
    Event.syncEv ∉ (run lockedEnv ⟨Subcommands.new⟩).trace ∧
    (∀ c, Event.dispatchEv c ∉ (run lockedEnv ⟨Subcommands.new⟩).trace) ∧
    (∀ p, Event.dbInitEv p ∉ (run lockedEnv ⟨Subcommands.new⟩).trace) ∧
    (run lockedEnv ⟨Subcommands.new⟩).lockAfter = true :=
  (run_lock_acquire_outcomes lockedEnv ⟨Subcommands.new⟩
    "/home/user/.config/gondolin" "/home/user/.local/share/gondolin"
    ⟨"/home/user/.local/share/gondolin/gondolin.db", 8080⟩
    (by decide) rfl rfl rfl rfl rfl).2.1 rfl

/-- C5: on the non-`init` branch the stages run in source order; a
config-open or database-open failure aborts the run before the lock file
is ever created (no lock event, lock state untouched), and a fully
successful run produces exactly the ordered trace open config, open
database, create lock, dispatch, sync, remove lock. -/
theorem run_normal_order (env : Env) (args : Cli) (cd dd : String)
    (hsub : args.subcommand ≠ Subcommands.init)
    (hpd : env.projDirs = some (cd, dd))
    (hce : env.confDirExists = Except.ok true)
    (hde : env.dataDirExists = Except.ok true) :
    (∀ e, env.configOpenOutcome = Except.error e →
      (run env args).result = RunResult.error ("Failed to open config interactively: " ++ e) ∧
      (∀ p, Event.lockCreateEv p ∉ (run env args).trace) ∧
      (run env args).lockAfter = env.lockExists0) ∧
    (∀ e cfg, env.configOpenOutcome = Except.ok cfg →
      env.dbOpenOutcome = Except.error e →
      (run env args).result = RunResult.error ("Failed to open the existing database: " ++ e) ∧
      (∀ p, Event.lockCreateEv p ∉ (run env args).trace) ∧
      (run env args).lockAfter = env.lockExists0) ∧
    (∀ cfg, env.configOpenOutcome = Except.ok cfg →
      env.dbOpenOutcome = Except.ok () →
      env.lockExists0 = false → env.lockCreateErr = none →
      cmdOutcome env args.subcommand = Except.ok () →
      env.syncOutcome = Except.ok () →
      env.lockRemoveOutcome = LockRemoveOutcome.ok →
      (run env args).trace =
        [Event.checkConfDir, Event.checkDataDir,
         Event.configOpenEv (cd ++ "/" ++ CONFIG_FILE_NAME),
         Event.dbOpenEv cfg.path,
         Event.lockCreateEv (lockPath env),
         Event.dispatchEv args.subcommand,
         Event.syncEv,
         Event.lockRemoveEv (lockPath env)]) := by
  refine ⟨?_, ?_, ?_⟩
  · intro e hco
    rw [run_normal_eq env args cd dd hsub hpd hce hde]
    simp [normalBranch, hco]
  · intro e cfg hco hdo
    rw [run_normal_eq env args cd dd hsub hpd hce hde]
    simp [normalBranch, hco, hdo]
  · intro cfg hco hdo hl0 hlc hcmd hsy hlr
    have h := run_normal_success_eq env args cd dd cfg hsub hpd hce hde hco hdo
      hl0 hlc hcmd hsy hlr
    simp [h]

/-- Concrete instantiation of the ordering theorem: a failed config open
in `cfgFailEnv` aborts before the lock file is created. -/
theorem run_normal_order_witness :
    (run cfgFailEnv ⟨Subcommands.remove⟩).result =
      RunResult.error ("Failed to open config interactively: " ++ "corrupt file") ∧
    (∀ p, Event.lockCreateEv p ∉ (run cfgFailEnv ⟨Subcommands.remove⟩).trace) ∧
    (run cfgFailEnv ⟨Subcommands.remove⟩).lockAfter = cfgFailEnv.lockExists0 :=
  (run_normal_order cfgFailEnv ⟨Subcommands.remove⟩
    "/home/user/.config/gondolin" "/home/user/.local/share/gondolin"
    (by decide) rfl rfl rfl).1 "corrupt file" rfl

/-- C6: lock release removes the lock file on success; a not-found error
at removal prints a message and exits 1; any other I/O error is a
contextualized lock-release error leaving the file behind. -/
theorem run_lock_release_outcomes (env : Env) (args : Cli)
    (cd dd : String) (cfg : Config)
    (hsub : args.subcommand ≠ Subcommands.init)
    (hpd : env.projDirs = some (cd, dd))
    (hce : env.confDirExists = Except.ok true)
    (hde : env.dataDirExists = Except.ok true)
    (hco : env.configOpenOutcome = Except.ok cfg)
    (hdo : env.dbOpenOutcome = Except.ok ())
    (hl0 : env.lockExists0 = false)
    (hlc : env.lockCreateErr = none)
    (hcmd : cmdOutcome env args.subcommand = Except.ok ())
    (hsy : env.syncOutcome = Except.ok ()) :
    (env.lockRemoveOutcome = LockRemoveOutcome.ok →
      (run env args).result = RunResult.ok ∧
      (run env args).lockAfter = false ∧
      Event.lockRemoveEv (lockPath env) ∈ (run env args).trace) ∧
    (env.lockRemoveOutcome = LockRemoveOutcome.notFound →
      (run env args).result = RunResult.exit 1 ∧
      Event.stderrEv lockGoneMsg ∈ (run env args).trace ∧
      (run env args).lockAfter = false) ∧
    (∀ e, env.lockRemoveOutcome = LockRemoveOutcome.err e →
      (run env args).result = RunResult.error ("Failed to remove the lockfile: " ++ e) ∧
      (run env args).lockAfter = true) := by
  have h := run_afterDispatch_eq env args cd dd cfg hsub hpd hce hde hco hdo
    hl0 hlc hcmd
  refine ⟨?_, ?_, ?_⟩
  · intro hlr
    simp [h, afterDispatch, hsy, hlr]
  · intro hlr
    simp [h, afterDispatch, hsy, hlr]
  · intro e hlr
    simp [h, afterDispatch, hsy, hlr]

/-- Concrete instantiation of the lock-release theorem: a vanished lock
file in `lockGoneEnv` exits 1 with the lock-gone message. -/
theorem run_lock_release_outcomes_witness :
    (run lockGoneEnv ⟨Subcommands.query none⟩).result = RunResult.exit 1 ∧
    Event.stderrEv lockGoneMsg ∈ (run lockGoneEnv ⟨Subcommands.query none⟩).trace ∧
    (run lockGoneEnv ⟨Subcommands.query none⟩).lockAfter = false :=
  (run_lock_release_outcomes lockGoneEnv ⟨Subcommands.query none⟩
    "/home/user/.config/gondolin" "/home/user/.local/share/gondolin"
    ⟨"/home/user/.local/share/gondolin/gondolin.db", 8080⟩
    (by decide) rfl rfl rfl rfl rfl rfl rfl rfl rfl).2.1 rfl

/-- C9: when `sync` fails after a successful dispatch, the sync error is
propagated, the lock file is never removed and remains on disk, and any
later run that starts while the lock file exists exits 1 with the
already-running message. -/
theorem run_sync_error_leaves_lock (env : Env) (args : Cli)
    (cd dd : String) (cfg : Config) (e : String)
    (hsub : args.subcommand ≠ Subcommands.init)
    (hpd : env.projDirs = some (cd, dd))
    (hce : env.confDirExists = Except.ok true)
    (hde : env.dataDirExists = Except.ok true)
    (hco : env.configOpenOutcome = Except.ok cfg)
    (hdo : env.dbOpenOutcome = Except.ok ())
    (hl0 : env.lockExists0 = false)
    (hlc : env.lockCreateErr = none)
    (hcmd : cmdOutcome env args.subcommand = Except.ok ())
    (hsy : env.syncOutcome = Except.error e) :
    (run env args).result = RunResult.error ("Failed to sync database to disk: " ++ e) ∧
    (run env args).lockAfter = true ∧
    (∀ p, Event.lockRemoveEv p ∉ (run env args).trace) ∧
    (∀ (env2 : Env) (args2 : Cli) (cd2 dd2 : String) (cfg2 : Config),
      env2.lockExists0 = true →
      args2.subcommand ≠ Subcommands.init →
      env2.projDirs = some (cd2, dd2) →
      env2.confDirExists = Except.ok true →
      env2.dataDirExists = Except.ok true →
      env2.configOpenOutcome = Except.ok cfg2 →
      env2.dbOpenOutcome = Except.ok () →
      (run env2 args2).result = RunResult.exit 1 ∧
      Event.stderrEv alreadyRunningMsg ∈ (run env2 args2).trace) := by
  have h := run_afterDispatch_eq env args cd dd cfg hsub hpd hce hde hco hdo
    hl0 hlc hcmd
  refine ⟨?_, ?_, ?_, ?_⟩
  · simp [h, afterDispatch, hsy]
  · simp [h, afterDispatch, hsy]
  · intro p
    simp [h, afterDispatch, hsy]
  · intro env2 args2 cd2 dd2 cfg2 hl02 hsub2 hpd2 hce2 hde2 hco2 hdo2
    have h2 := run_already_locked env2 args2 cd2 dd2 cfg2 hsub2 hpd2 hce2
      hde2 hco2 hdo2 hl02
    simp [h2]

/-- Concrete instantiation of the sync-failure theorem at `syncFailEnv`,
with `lockedEnv` as the subsequent blocked run. -/
theorem run_sync_error_leaves_lock_witness :
    ((run syncFailEnv ⟨Subcommands.query none⟩).result =
      RunResult.error ("Failed to sync database to disk: " ++ "disk full") ∧
    (run syncFailEnv ⟨Subcommands.query none⟩).lockAfter = true) ∧
    ((run lockedEnv ⟨Subcommands.query none⟩).result = RunResult.exit 1 ∧
    Event.stderrEv alreadyRunningMsg ∈ (run lockedEnv ⟨Subcommands.query none⟩).trace) := by
  have h := run_sync_error_leaves_lock syncFailEnv ⟨Subcommands.query none⟩
    "/home/user/.config/gondolin" "/home/user/.local/share/gondolin"
    ⟨"/home/user/.local/share/gondolin/gondolin.db", 8080⟩ "disk full"
    (by decide) rfl rfl rfl rfl rfl rfl rfl rfl rfl
  exact ⟨⟨h.1, h.2.1⟩,
    h.2.2.2 lockedEnv ⟨Subcommands.query none⟩
      "/home/user/.config/gondolin" "/home/user/.local/share/gondolin"
      ⟨"/home/user/.local/share/gondolin/gondolin.db", 8080⟩
      rfl (by decide) rfl rfl rfl rfl rfl⟩

/-- C7: if the platform supplies no project directories, `run` fails with
the resolution error; if either the configuration directory or the data
directory is absent, both are created (config first, then data), keeping
the pair in lockstep. -/
theorem run_dir_creation (env : Env) (args : Cli) :
    (env.projDirs = none →
      run env args = ⟨RunResult.error "Failed to get project directories", [],
        env.lockExists0⟩) ∧
    (∀ cd dd, env.projDirs = some (cd, dd) →
      env.confDirExists = Except.ok false →
      env.createConfDir = Except.ok () → env.createDataDir = Except.ok () →
      Event.createConfDirEv ∈ (run env args).trace ∧
      Event.createDataDirEv ∈ (run env args).trace) ∧
    (∀ cd dd, env.projDirs = some (cd, dd) →
      env.confDirExists = Except.ok true →
      env.dataDirExists = Except.ok false →
      env.createConfDir = Except.ok () → env.createDataDir = Except.ok () →
      Event.createConfDirEv ∈ (run env args).trace ∧
      Event.createDataDirEv ∈ (run env args).trace) := by
  refine ⟨?_, ?_, ?_⟩
  · intro hpd
    simp [run, hpd]
  · intro cd dd hpd hce hcc hcd
    have h : run env args = branch env args cd dd
        [Event.checkConfDir, Event.createConfDirEv, Event.createDataDirEv] := by
      simp [run, hpd, withDirs, hce, createDirs, hcc, hcd]
    rw [h]
    exact ⟨branch_mem env args cd dd (by simp), branch_mem env args cd dd (by simp)⟩
  · intro cd dd hpd hce hde hcc hcd
    have h : run env args = branch env args cd dd
        [Event.checkConfDir, Event.checkDataDir,
         Event.createConfDirEv, Event.createDataDirEv] := by
      simp [run, hpd, withDirs, hce, hde, createDirs, hcc, hcd]
    rw [h]
    exact ⟨branch_mem env args cd dd (by simp), branch_mem env args cd dd (by simp)⟩

/-- Concrete instantiation of the directory-creation theorem: an absent
configuration directory in `mkDirsEnv` triggers creation of both
directories. -/
theorem run_dir_creation_witness :
    Event.createConfDirEv ∈ (run mkDirsEnv ⟨Subcommands.query none⟩).trace ∧
    Event.createDataDirEv ∈ (run mkDirsEnv ⟨Subcommands.query none⟩).trace :=
  (run_dir_creation mkDirsEnv ⟨Subcommands.query none⟩).2.1
    "/home/user/.config/gondolin" "/home/user/.local/share/gondolin"
    rfl rfl rfl rfl

/-- C10: the init branch initialises the configuration and the database
at the fixed resolved path `<data_dir>/gondolin.db`, while every normal
run opens the database at the path stored in the loaded configuration;
with a configuration recording a different path, the resolved default is
never opened. -/
theorem run_db_path_resolution (env : Env) (args : Cli) (cd dd : String)
    (hpd : env.projDirs = some (cd, dd))
    (hce : env.confDirExists = Except.ok true)
    (hde : env.dataDirExists = Except.ok true) :
    (args.subcommand = Subcommands.init →
      Event.configInitEv (cd ++ "/" ++ CONFIG_FILE_NAME)
        (dd ++ "/" ++ DATABASE_FILE_NAME) ∈ (run env args).trace ∧
      (env.configInitOutcome = Except.ok () →
        Event.dbInitEv (dd ++ "/" ++ DATABASE_FILE_NAME) ∈ (run env args).trace)) ∧
    (∀ cfg, args.subcommand ≠ Subcommands.init →
      env.configOpenOutcome = Except.ok cfg →
      Event.dbOpenEv cfg.path ∈ (run env args).trace) ∧
    (Event.dbOpenEv "/elsewhere/mydb.db" ∈ (run divergeEnv ⟨Subcommands.new⟩).trace ∧
     Event.dbOpenEv ("/home/user/.local/share/gondolin" ++ "/" ++ DATABASE_FILE_NAME)
       ∉ (run divergeEnv ⟨Subcommands.new⟩).trace) := by
  refine ⟨?_, ?_, by decide⟩
  · intro hsub
    have h : run env args = initBranch env (cd ++ "/" ++ CONFIG_FILE_NAME)
        (dd ++ "/" ++ DATABASE_FILE_NAME) [Event.checkConfDir, Event.checkDataDir] := by
      simp [run, hpd, withDirs, hce, hde, branch, hsub]
    rw [h]
    constructor
    · unfold initBranch
      cases env.configInitOutcome <;> simp
      cases env.dbInitOutcome <;> simp
    · intro hci
      unfold initBranch
      simp only [hci]
      cases env.dbInitOutcome <;> simp
  · intro cfg hsub hco
    rw [run_normal_eq env args cd dd hsub hpd hce hde]
    exact normalBranch_dbOpen_mem env args.subcommand _ _ cfg hco

/-- Concrete instantiation of the path-resolution theorem: a normal run
in `okEnv` opens the database at the path from the configuration. -/
theorem run_db_path_resolution_witness :
    Event.dbOpenEv "/home/user/.local/share/gondolin/gondolin.db"
      ∈ (run okEnv ⟨Subcommands.new⟩).trace :=
  (run_db_path_resolution okEnv ⟨Subcommands.new⟩
    "/home/user/.config/gondolin" "/home/user/.local/share/gondolin"
    rfl rfl rfl).2.1 ⟨"/home/user/.local/share/gondolin/gondolin.db", 8080⟩
    (by decide) rfl

end Gondolin
